import Mathlib

/-!
Verification development for the OGR VRT virtual-layer composition engine.

The repository ships the driver's test suite (`autotest/ogr/ogr_vrt.py`);
the driver implementation itself (the OGR VRT layer/union/warped sources)
is not part of the sources available here, so the executable model below is
built from the specification's description of the engine and checked both
against the spec's stated properties and against the concrete scenarios the
test suite exercises.
-/

namespace VRT

/-- Capability flags of a layer (source or virtual), mirroring the OGR
layer-capability queries exercised by the tests: fast feature count, fast
extent, fast spatial filter, random read, sequential write, random write. -/
structure Caps where
  fastFeatureCount : Bool
  fastGetExtent : Bool
  fastSpatialFilter : Bool
  randomRead : Bool
  sequentialWrite : Bool
  randomWrite : Bool
deriving DecidableEq, Repr

/-- Modelled from the spec: the Union Layer ("Capability flags (fast
count/extent/spatial-filter) are the logical AND of all inner layers'
corresponding flags; write capability additionally requires the presence of
the provenance field").  The implementation (OGRUnionLayer::TestCapability)
is not under the available sources.  `prov` is the configured
source-layer-name (provenance) field, if any. -/
def unionCaps (inners : List Caps) (prov : Option String) : Caps where
  fastFeatureCount := inners.all (fun c => c.fastFeatureCount)
  fastGetExtent := inners.all (fun c => c.fastGetExtent)
  fastSpatialFilter := inners.all (fun c => c.fastSpatialFilter)
  randomRead := inners.all (fun c => c.randomRead)
  sequentialWrite := prov.isSome && inners.all (fun c => c.sequentialWrite)
  randomWrite := prov.isSome && inners.all (fun c => c.randomWrite)

/-- Modelled from the spec: a direct virtual layer's configuration relevant
to capability negotiation — the source layer's capabilities, whether a
source-region polygon is configured, and whether the geometry is derived
(WKT/WKB/Shape/Coordinate-Columns) rather than passed through directly. -/
structure DirectCfg where
  src : Caps
  hasRegion : Bool
  derivedGeom : Bool
deriving DecidableEq, Repr

/-- Modelled from the spec: capability flags of a direct virtual layer
(OGRVRTLayer::TestCapability is not under the available sources).  For an
implicit passthrough (no source region, direct geometry) the fast flags and
random read delegate to the source layer; a region or a derived geometry
forces slow-path evaluation of counts, extents and spatial filters. -/
def directCaps (c : DirectCfg) : Caps where
  fastFeatureCount := !c.hasRegion && !c.derivedGeom && c.src.fastFeatureCount
  fastGetExtent := !c.hasRegion && !c.derivedGeom && c.src.fastGetExtent
  fastSpatialFilter := !c.hasRegion && !c.derivedGeom && c.src.fastSpatialFilter
  randomRead := c.src.randomRead
  sequentialWrite := c.src.sequentialWrite
  randomWrite := c.src.randomWrite

/-- A capability record with every flag set, used as a concrete writable
source in witnesses (a shapefile layer as in the tests). -/
def allCaps : Caps where
  fastFeatureCount := true
  fastGetExtent := true
  fastSpatialFilter := true
  randomRead := true
  sequentialWrite := true
  randomWrite := true

/-- A feature as decoded from a source layer: a feature id and the list of
set attribute fields (name, value).  A field absent from the list is unset
on that feature. -/
structure SrcFeature where
  fid : Nat
  attrs : List (String × Int)
deriving DecidableEq, Repr

/-- An inner source layer as the Union Layer sees it: its field-name list
and its feature stream in source order. -/
structure SrcLayer where
  fields : List String
  feats : List SrcFeature
deriving Repr

/-- Whether field `n` is set on feature `f`. -/
def SrcFeature.isSet (f : SrcFeature) (n : String) : Bool :=
  (f.attrs.lookup n).isSome

/-- Keep the names of `l` not already in `seen`, first occurrence only, in
first-seen order. -/
def addNewNames (seen : List String) : List String → List String
  | [] => []
  | x :: xs =>
      if x ∈ seen then addNewNames seen xs
      else x :: addNewNames (x :: seen) xs

/-- The Union Layer's field-reconciliation strategies. -/
inductive FieldStrategy
  | unionAll
  | intersection
  | firstLayer
deriving DecidableEq, Repr

/-- Modelled from the spec: field reconciliation of the Union Layer
(OGRUnionLayer's schema merge is not under the available sources).  `Union`
exposes the superset of all inner field names in first-seen order,
de-duplicated; `Intersection` only the names present in every inner layer;
`FirstLayer` exactly the first inner layer's field list. -/
def unionFieldNames : FieldStrategy → List (List String) → List String
  | .unionAll, inners => addNewNames [] inners.flatten
  | .intersection, [] => []
  | .intersection, first :: rest =>
      first.filter (fun n => rest.all (fun l => decide (n ∈ l)))
  | .firstLayer, inners => inners.headD []

/-- Modelled from the spec: reading a Union Layer iterates inner layers in
declared order, concatenating their feature streams; exposed feature ids
are a layer-local sequential renumbering from zero.  A feature keeps only
the attributes its own layer defines, so a field absent from that layer
stays unset. -/
def unionRead (inners : List SrcLayer) : List SrcFeature :=
  ((inners.map SrcLayer.feats).flatten.enum).map
    (fun p => { fid := p.1, attrs := p.2.attrs })

/-- The first inner layer of the test scenario: fields id1, id2 and 25
features with id1 = i and id2 = 100 + i. -/
def exLayer1 : SrcLayer where
  fields := ["id1", "id2"]
  feats := (List.range 25).map
    (fun i => { fid := i, attrs := [("id1", (i : Int)), ("id2", (100 + i : Int))] })

/-- The second inner layer of the test scenario: fields id2, id3 and 25
features with id2 = 200 + i and id3 = 300 + i. -/
def exLayer2 : SrcLayer where
  fields := ["id2", "id3"]
  feats := (List.range 25).map
    (fun i => { fid := i, attrs := [("id2", (200 + i : Int)), ("id3", (300 + i : Int))] })

/-- An axis-aligned filter rectangle.  Coordinates are modelled as integers
(a fixed-point scaling of the driver's doubles), which preserves every
order comparison the filter logic performs. -/
structure Rect where
  xmin : Int
  ymin : Int
  xmax : Int
  ymax : Int
deriving DecidableEq, Repr

/-- Whether the point (x, y) lies inside rectangle `r` (inclusive). -/
def Rect.containsXY (r : Rect) (x y : Int) : Bool :=
  decide (r.xmin ≤ x) && decide (x ≤ r.xmax)
    && decide (r.ymin ≤ y) && decide (y ≤ r.ymax)

/-- Declared type of a source column, as resolved for filter translation:
only numeric columns admit spatial-to-attribute filter delegation. -/
inductive ColType
  | numeric
  | text
deriving DecidableEq, Repr

/-- A row of a PointFromColumns source: feature id and the values of the X
and Y source columns (already convertible to coordinates). -/
structure PointRow where
  fid : Nat
  x : Int
  y : Int
deriving DecidableEq, Repr

/-- Outcome of applying a rectangular spatial filter to a PointFromColumns
layer: the selected rows, the reported fast-spatial-filter capability, and
whether a diagnostic was emitted. -/
structure FilterOutcome where
  feats : List PointRow
  fastSpatialFilter : Bool
  diagnostic : Bool
deriving Repr

/-- Modelled from the spec: spatial filtering of a Coordinate-Columns
(PointFromColumns) layer (OGRVRTLayer::SetSpatialFilter /
TestCapability(OLCFastSpatialFilter) are not under the available sources).
If the X and Y source columns are declared numeric, the rectangle is
delegated to the source as an attribute-range predicate on the two columns
(fast path, no diagnostic); if either is typed as text, delegation is
refused, a diagnostic is issued, the fast-spatial-filter capability is
reported unavailable, and the filter is evaluated locally against the
decoded point geometry. -/
def coordColsSpatialFilter (xType yType : ColType) (rows : List PointRow)
    (r : Rect) : FilterOutcome :=
  if xType = ColType.numeric ∧ yType = ColType.numeric then
    { feats := rows.filter (fun p =>
        decide (r.xmin ≤ p.x) && decide (p.x ≤ r.xmax)
          && decide (r.ymin ≤ p.y) && decide (p.y ≤ r.ymax)),
      fastSpatialFilter := true,
      diagnostic := false }
  else
    { feats := rows.filter (fun p => r.containsXY p.x p.y),
      fastSpatialFilter := false,
      diagnostic := true }

/-- Modelled from the spec: implicit field-schema resolution for a layer
whose geometry is derived from source columns ("By default the source
columns used for coordinates are hidden from the exposed field list unless
explicitly requested to remain visible"; OGRVRTLayer::FullInitialize is not
under the available sources).  `coordCols` are the columns consumed by the
geometry strategy and `reportSrcColumn` the flag requesting they stay
visible. -/
def exposedFields (srcFields : List String) (coordCols : List String)
    (reportSrcColumn : Bool) : List String :=
  if reportSrcColumn then srcFields
  else srcFields.filter (fun f => decide (f ∉ coordCols))

/-- A feature with several geometry fields: an optional point per field. -/
structure MGFeature where
  fid : Nat
  geoms : List (Option (Int × Int))
deriving DecidableEq, Repr

/-- Whether geometry `g` passes the optional rectangle filter `r`: no
filter passes everything; a set filter passes exactly the features whose
geometry is present and inside the rectangle. -/
def passesFilter (r : Option Rect) (g : Option (Int × Int)) : Bool :=
  match r with
  | none => true
  | some rect =>
    match g with
    | none => false
    | some p => rect.containsXY p.1 p.2

/-- Modelled from the spec: a virtual layer's filtering state — the feature
stream, an optional source-region rectangle applied to the first geometry
field, and one optional spatial filter per geometry field (a direct layer
has a single geometry field; multi-geometry layers have several). -/
structure MGLayer where
  feats : List MGFeature
  srcRegion : Option Rect
  filters : List (Option Rect)
deriving Repr

/-- Whether feature `f` passes the source region and every per-field
spatial filter. -/
def MGFeature.passesAll (filters : List (Option Rect)) (region : Option Rect)
    (f : MGFeature) : Bool :=
  passesFilter region (f.geoms.getD 0 none)
    && (List.range filters.length).all
        (fun i => passesFilter (filters.getD i none) (f.geoms.getD i none))

/-- Modelled from the spec: the reported feature count — the number of
features passing the source region and the current spatial filters
(OGRVRTLayer::GetFeatureCount is not under the available sources). -/
def MGLayer.featureCount (l : MGLayer) : Nat :=
  (l.feats.filter (MGFeature.passesAll l.filters l.srcRegion)).length

/-- Modelled from the spec: setting (or, with `none`, clearing) the spatial
filter of geometry field `i`. -/
def MGLayer.setSpatialFilter (l : MGLayer) (i : Nat) (r : Option Rect) :
    MGLayer :=
  { l with filters := l.filters.set i r }

/-- Parse result of a spatial-reference descriptor string. -/
inductive SRS
  | epsg (code : Nat)
  | wellKnown (s : String)
deriving DecidableEq, Repr

/-- Modelled from the spec: a Warped Layer definition — the inner layer's
geometry-field names, the optional source-SRS override, the declared target
SRS, and the optionally named warped geometry field. -/
structure WarpedDef where
  innerGeomFields : List String
  srcSRS : Option String
  targetSRS : Option String
  warpedFieldName : Option String
deriving Repr

/-- Index of a named geometry field in the inner layer's geometry-field
list. -/
def findGeomField (fields : List String) (n : String) : Option Nat :=
  fields.findIdx? (fun f => f == n)

/-- Resolution of the warped geometry field: the inner layer's first
geometry field when unnamed, else the named field, which must exist. -/
def warpedFieldIndex (d : WarpedDef) : Except String Nat :=
  match d.warpedFieldName with
  | none => Except.ok 0
  | some n =>
    match findGeomField d.innerGeomFields n with
    | none => Except.error "Cannot find specified geometry field"
    | some i => Except.ok i

/-- Modelled from the spec: Warped Layer construction (the OGRVRTWarpedLayer
node handling is not under the available sources).  Construction fails —
returning an error and no usable layer — when the inner layer has no
geometry field, the target SRS is missing or unparsable, a given source-SRS
override is unparsable, or the named warped field does not exist; on
success it returns the warped geometry field's index. -/
def constructWarped (parseSRS : String → Option SRS) (d : WarpedDef) :
    Except String Nat :=
  if d.innerGeomFields.isEmpty then
    Except.error "The source layer has no geometry field"
  else
    match d.targetSRS with
    | none => Except.error "Missing TargetSRS element"
    | some t =>
      match parseSRS t with
      | none => Except.error "Failed to import target SRS"
      | some _ =>
        match d.srcSRS with
        | some s =>
          match parseSRS s with
          | none => Except.error "Failed to import source SRS"
          | some _ => warpedFieldIndex d
        | none => warpedFieldIndex d

/-- Whether a fallible call reported an error. -/
def reportsError {α : Type} : Except String α → Bool
  | Except.error _ => true
  | Except.ok _ => false

/-- A feature as read through a Warped Layer: identity, attribute values
and one optional point geometry per geometry field. -/
structure WFeature where
  fid : Nat
  attrs : List (String × Int)
  geoms : List (Option (Int × Int))
deriving DecidableEq, Repr

/-- Modelled from the spec: per-feature read through a Warped Layer
(OGRWarpedLayer's feature translation is not under the available sources).
The warped geometry field's value is transformed forward; when the
transform fails for the feature's coordinate the geometry becomes null and
a warning is recorded (second component true), while the identity, the
attribute values and every other geometry field pass through unchanged. -/
def warpFeature (tr : Int × Int → Option (Int × Int)) (widx : Nat)
    (f : WFeature) : WFeature × Bool :=
  match f.geoms.getD widx none with
  | none => (f, false)
  | some p =>
    match tr p with
    | none => ({ f with geoms := f.geoms.set widx none }, true)
    | some q => ({ f with geoms := f.geoms.set widx (some q) }, false)

/-- Modelled from the spec: a sequential scan through a Warped Layer warps
each decoded feature in turn; a per-feature transform failure never aborts
the scan. -/
def warpedScan (tr : Int × Int → Option (Int × Int)) (widx : Nat)
    (feats : List WFeature) : List WFeature :=
  feats.map (fun f => (warpFeature tr widx f).1)

/-- Modelled from the spec: random read by feature id through a Warped
Layer — the inner feature with that id, warped. -/
def warpedGetFeature (tr : Int × Int → Option (Int × Int)) (widx : Nat)
    (feats : List WFeature) (i : Nat) : Option WFeature :=
  (feats.find? (fun f => f.fid == i)).map (fun f => (warpFeature tr widx f).1)

/-- A forward transform with latitude domain [-90, 90] scaled by 10, as in
the test's EPSG:4326 source: out-of-domain coordinates (latitude 91) fail. -/
def boundedTransform (p : Int × Int) : Option (Int × Int) :=
  if -900 ≤ p.2 ∧ p.2 ≤ 900 then some (p.1 + 1, p.2 + 1) else none

/-- Geometry type reported by schema queries. -/
inductive GeomType
  | noGeometry
  | unknownGeometry
  | point
deriving DecidableEq, Repr

/-- Modelled from the spec: a layer definition's statically declared
metadata — the inner source layer's name, the optional explicit field list
and the optional declared geometry type. -/
structure LayerDefn where
  srcLayerName : String
  declaredFields : Option (List String)
  declaredGeomType : Option GeomType
deriving Repr

/-- A virtual layer after open: its definition and the source layer it is
bound to, or `none` when the named inner layer does not exist. -/
structure VLayer where
  defn : LayerDefn
  bound : Option SrcLayer
deriving Repr

/-- Modelled from the spec: opening a virtual layer binds it to the named
source layer; when the name does not resolve the layer stays usable for
metadata queries in a degraded mode (OGRVRTLayer's lazy initialization is
not under the available sources). -/
def openVLayer (srcLayers : List (String × SrcLayer)) (d : LayerDefn) :
    VLayer :=
  { defn := d, bound := srcLayers.lookup d.srcLayerName }

/-- Schema query: the exposed field count — declared fields if given, else
the source's fields, else zero in degraded mode. -/
def VLayer.fieldCount (l : VLayer) : Nat :=
  match l.defn.declaredFields with
  | some fs => fs.length
  | none =>
    match l.bound with
    | some src => src.fields.length
    | none => 0

/-- Schema query: the reported geometry type — declared if given, inferred
from the source when bound, `noGeometry` in degraded mode. -/
def VLayer.geomType (l : VLayer) : GeomType :=
  match l.defn.declaredGeomType with
  | some t => t
  | none =>
    match l.bound with
    | some _ => GeomType.unknownGeometry
    | none => GeomType.noGeometry

/-- The reported feature count: zero in degraded mode. -/
def VLayer.featureCount (l : VLayer) : Nat :=
  match l.bound with
  | some src => src.feats.length
  | none => 0

/-- Sequential read: the next feature of the stream, nothing in degraded
mode. -/
def VLayer.nextFeature (l : VLayer) : Option SrcFeature :=
  match l.bound with
  | some src => src.feats.head?
  | none => none

/-- Random read by feature id: nothing in degraded mode. -/
def VLayer.getFeature (l : VLayer) (i : Nat) : Option SrcFeature :=
  match l.bound with
  | some src => src.feats.find? (fun f => f.fid == i)
  | none => none

/-- Data-touching call: setting an attribute filter succeeds only on a
bound layer (true = success). -/
def VLayer.setAttributeFilterOk (l : VLayer) : Bool :=
  l.bound.isSome

/-- Data-touching call: positioning the read cursor by index succeeds only
on a bound layer (true = success). -/
def VLayer.setNextByIndexOk (l : VLayer) : Bool :=
  l.bound.isSome

/-- The identity of a source descriptor as tracked by the Recursion Guard:
resolved locator plus shared flag. -/
structure SrcIdentity where
  locator : String
  shared : Bool
deriving DecidableEq, Repr

/-- Modelled from the spec: the Recursion Guard (the driver's
anti-recursion registry is not under the available sources).  Before a
source descriptor is opened its identity is pushed onto the active-opening
stack; if an identity already on the stack is requested again, the open
fails immediately with a diagnostic.  `next` maps a definition's locator to
the source descriptor that definition references (`none` for a physical
leaf source that opens directly); `fuel` bounds the modelled recursion
depth. -/
def openGuarded (next : String → Option SrcIdentity) :
    Nat → List SrcIdentity → SrcIdentity → Except String Unit
  | 0, _, _ => Except.error "recursion depth exceeded"
  | fuel + 1, stack, cur =>
    if cur ∈ stack then
      Except.error "Trying to open recursively the same datasource"
    else
      match next cur.locator with
      | none => Except.ok ()
      | some nxt => openGuarded next fuel (cur :: stack) nxt

/-- The chain of source identities transitively referenced from `start`:
element k is the k-th descriptor of the source chain, if it exists. -/
def chainFrom (next : String → Option SrcIdentity) (start : SrcIdentity) :
    Nat → Option SrcIdentity
  | 0 => some start
  | k + 1 => (chainFrom next start k).bind (fun c => next c.locator)

/-- The two mutually referencing definitions of the anti-recursion tests:
rec1.vrt references rec2.vrt and back, with configurable shared flags on
the two source descriptors. -/
def twoNodeCycle (sA sB : Bool) : String → Option SrcIdentity :=
  fun loc =>
    if loc = "rec1.vrt" then some ⟨"rec2.vrt", sB⟩
    else if loc = "rec2.vrt" then some ⟨"rec1.vrt", sA⟩
    else none

end VRT

namespace VRT

/-- C2: for every Union Layer, the fast-feature-count, fast-get-extent and
fast-spatial-filter flags are the logical AND of all inner layers'
corresponding flags; the random-write and sequential-write capabilities are
false whenever no provenance field is configured, and both become true when
a provenance field is configured over inner layers that are all writable. -/
theorem unionCaps_spec (inners : List Caps) (prov : Option String) :
    ((unionCaps inners prov).fastFeatureCount
        = inners.all (fun c => c.fastFeatureCount)
      ∧ (unionCaps inners prov).fastGetExtent
        = inners.all (fun c => c.fastGetExtent)
      ∧ (unionCaps inners prov).fastSpatialFilter
        = inners.all (fun c => c.fastSpatialFilter))
    ∧ (prov = none →
        (unionCaps inners prov).randomWrite = false
          ∧ (unionCaps inners prov).sequentialWrite = false)
    ∧ (∀ s : String, prov = some s →
        (∀ c ∈ inners, c.randomWrite = true ∧ c.sequentialWrite = true) →
        (unionCaps inners prov).randomWrite = true
          ∧ (unionCaps inners prov).sequentialWrite = true) := by
  refine ⟨⟨rfl, rfl, rfl⟩, ?_, ?_⟩
  · rintro rfl
    exact ⟨rfl, rfl⟩
  · rintro s rfl hall
    constructor
    · simp only [unionCaps, Option.isSome_some, Bool.true_and, List.all_eq_true]
      exact fun c hc => (hall c hc).1
    · simp only [unionCaps, Option.isSome_some, Bool.true_and, List.all_eq_true]
      exact fun c hc => (hall c hc).2

/-- Witness for C2 at a concrete input: two all-capable inner layers, once
without and once with a provenance field configured. -/
theorem unionCaps_spec_witness :
    (unionCaps [allCaps, allCaps] none).randomWrite = false
      ∧ (unionCaps [allCaps, allCaps] none).sequentialWrite = false
      ∧ (unionCaps [allCaps, allCaps] (some "source_layer")).randomWrite = true
      ∧ (unionCaps [allCaps, allCaps]
          (some "source_layer")).sequentialWrite = true :=
  ⟨((unionCaps_spec [allCaps, allCaps] none).2.1 rfl).1,
    ((unionCaps_spec [allCaps, allCaps] none).2.1 rfl).2,
    ((unionCaps_spec [allCaps, allCaps] (some "source_layer")).2.2
      "source_layer" rfl (by decide)).1,
    ((unionCaps_spec [allCaps, allCaps] (some "source_layer")).2.2
      "source_layer" rfl (by decide)).2⟩

/-- C10: for a direct virtual layer defined with only a source data source
and source layer (implicit passthrough: no source region, no derived
geometry), the fast-feature-count, fast-get-extent and random-read
capability flags each equal the source layer's corresponding flag. -/
theorem directCaps_passthrough (c : DirectCfg)
    (hreg : c.hasRegion = false) (hder : c.derivedGeom = false) :
    (directCaps c).fastFeatureCount = c.src.fastFeatureCount
      ∧ (directCaps c).fastGetExtent = c.src.fastGetExtent
      ∧ (directCaps c).randomRead = c.src.randomRead := by
  refine ⟨?_, ?_, rfl⟩ <;>
    simp [directCaps, hreg, hder]

/-- Witness for C10 at a concrete configuration: a passthrough virtual layer
over an all-capable shapefile-like source. -/
theorem directCaps_passthrough_witness :
    (directCaps ⟨allCaps, false, false⟩).fastFeatureCount
        = allCaps.fastFeatureCount
      ∧ (directCaps ⟨allCaps, false, false⟩).fastGetExtent
        = allCaps.fastGetExtent
      ∧ (directCaps ⟨allCaps, false, false⟩).randomRead
        = allCaps.randomRead :=
  directCaps_passthrough ⟨allCaps, false, false⟩ rfl rfl

/-- Membership in `addNewNames`: exactly the names of the remaining input
that were not already seen. -/
theorem mem_addNewNames (y : String) (l : List String) :
    ∀ seen, y ∈ addNewNames seen l ↔ y ∈ l ∧ y ∉ seen := by
  induction l with
  | nil => intro seen; simp [addNewNames]
  | cons x xs ih =>
    intro seen
    by_cases hx : x ∈ seen
    · simp only [addNewNames, if_pos hx, ih seen, List.mem_cons]
      constructor
      · rintro ⟨h1, h2⟩; exact ⟨Or.inr h1, h2⟩
      · rintro ⟨h1 | h1, h2⟩
        · exact absurd (h1 ▸ hx) h2
        · exact ⟨h1, h2⟩
    · simp only [addNewNames, if_neg hx, List.mem_cons, ih (x :: seen)]
      by_cases hyx : y = x
      · subst hyx; simp [hx]
      · simp [hyx]

/-- `addNewNames` produces a duplicate-free list. -/
theorem nodup_addNewNames (l : List String) :
    ∀ seen, (addNewNames seen l).Nodup := by
  induction l with
  | nil => intro seen; simp [addNewNames]
  | cons x xs ih =>
    intro seen
    by_cases hx : x ∈ seen
    · simpa [addNewNames, if_pos hx] using ih seen
    · simp only [addNewNames, if_neg hx]
      refine List.nodup_cons.mpr ⟨fun hc => ?_, ih (x :: seen)⟩
      exact ((mem_addNewNames x xs (x :: seen)).mp hc).2 (List.mem_cons_self x seen)

/-- De-duplication preserves the name set. -/
theorem toFinset_addNewNames (l : List String) :
    (addNewNames [] l).toFinset = l.toFinset := by
  ext y
  simp [List.mem_toFinset, mem_addNewNames]

/-- The length of the de-duplicated list is the number of distinct names. -/
theorem length_addNewNames (l : List String) :
    (addNewNames [] l).length = l.toFinset.card := by
  rw [← toFinset_addNewNames l,
    List.toFinset_card_of_nodup (nodup_addNewNames l [])]

/-- C1: Union Layer field reconciliation and reading.  Under Intersection a
name is exposed iff it occurs in every inner layer; under FirstLayer the
exposed list is exactly the first inner layer's; under Union the field
count is the number of distinct names across all inner layers.  Reading
concatenates the inner layers' feature streams in declared order (same
attribute stream, feature ids renumbered sequentially), and on the test
scenario — two 25-feature layers with fields {id1,id2} and {id2,id3} — the
Union strategy yields 3 fields and 50 features, features 0..24 having id1
and id2 set with id3 unset, features 25..49 having id2 and id3 set with id1
unset. -/
theorem union_layer_field_reconciliation :
    (∀ (first : List String) (rest : List (List String)) (n : String),
        n ∈ unionFieldNames .intersection (first :: rest)
          ↔ ∀ l ∈ first :: rest, n ∈ l)
    ∧ (∀ (first : List String) (rest : List (List String)),
        unionFieldNames .firstLayer (first :: rest) = first)
    ∧ (∀ inners : List (List String),
        (unionFieldNames .unionAll inners).length = inners.flatten.toFinset.card)
    ∧ (∀ inners : List SrcLayer,
        (unionRead inners).map SrcFeature.attrs
            = ((inners.map SrcLayer.feats).flatten).map SrcFeature.attrs
          ∧ (unionRead inners).map SrcFeature.fid
            = List.range ((inners.map SrcLayer.feats).flatten.length))
    ∧ ((unionFieldNames .unionAll [exLayer1.fields, exLayer2.fields]).length = 3
        ∧ (unionRead [exLayer1, exLayer2]).length = 50
        ∧ ((unionRead [exLayer1, exLayer2]).take 25).all
            (fun f => f.isSet "id1" && f.isSet "id2" && !f.isSet "id3") = true
        ∧ ((unionRead [exLayer1, exLayer2]).drop 25).all
            (fun f => f.isSet "id2" && f.isSet "id3" && !f.isSet "id1") = true) := by
  refine ⟨?_, ?_, ?_, ?_, ?_⟩
  · intro first rest n
    simp only [unionFieldNames, List.mem_filter, List.all_eq_true, decide_eq_true_eq,
      List.mem_cons]
    constructor
    · rintro ⟨h1, h2⟩ l (rfl | hl)
      · exact h1
      · exact h2 l hl
    · intro h
      exact ⟨h first (Or.inl rfl), fun l hl => h l (Or.inr hl)⟩
  · intro first rest
    rfl
  · intro inners
    exact length_addNewNames inners.flatten
  · intro inners
    constructor
    · unfold unionRead
      rw [List.map_map]
      have h : (SrcFeature.attrs ∘ fun p : Nat × SrcFeature =>
          SrcFeature.mk p.1 p.2.attrs) = SrcFeature.attrs ∘ Prod.snd := rfl
      rw [h, ← List.map_map, List.enum_map_snd]
    · unfold unionRead
      rw [List.map_map]
      have h : (SrcFeature.fid ∘ fun p : Nat × SrcFeature =>
          SrcFeature.mk p.1 p.2.attrs) = Prod.fst := rfl
      rw [h, List.enum_map_fst]
  · refine ⟨by decide, by decide, by decide, by decide⟩

/-- Witness for C1 applied at the test scenario's field lists: Intersection
membership and FirstLayer reconciliation at concrete inputs. -/
theorem union_layer_field_reconciliation_witness :
    ("id2" ∈ unionFieldNames .intersection [["id1", "id2"], ["id2", "id3"]]
        ↔ ∀ l ∈ [["id1", "id2"], ["id2", "id3"]], "id2" ∈ l)
      ∧ unionFieldNames .firstLayer [["id1", "id2"], ["id2", "id3"]]
          = ["id1", "id2"] :=
  ⟨union_layer_field_reconciliation.1 ["id1", "id2"] [["id2", "id3"]] "id2",
    union_layer_field_reconciliation.2.1 ["id1", "id2"] [["id2", "id3"]]⟩

/-- C3: a rectangular spatial filter on a PointFromColumns layer whose X/Y
columns are typed as text reports the fast-spatial-filter capability as
unavailable, emits a diagnostic and still selects exactly the rows whose
decoded point lies in the rectangle; with numeric columns the filter is
delegated with no diagnostic and selects the same, geometrically correct
subset. -/
theorem coordCols_spatial_filter_translation (xType yType : ColType)
    (rows : List PointRow) (r : Rect) :
    (xType = ColType.text ∨ yType = ColType.text →
        (coordColsSpatialFilter xType yType rows r).fastSpatialFilter = false
          ∧ (coordColsSpatialFilter xType yType rows r).diagnostic = true
          ∧ (coordColsSpatialFilter xType yType rows r).feats
              = rows.filter (fun p => r.containsXY p.x p.y))
    ∧ (xType = ColType.numeric → yType = ColType.numeric →
        (coordColsSpatialFilter xType yType rows r).diagnostic = false
          ∧ (coordColsSpatialFilter xType yType rows r).fastSpatialFilter = true
          ∧ (coordColsSpatialFilter xType yType rows r).feats
              = rows.filter (fun p => r.containsXY p.x p.y)) := by
  constructor
  · intro h
    have hne : ¬(xType = ColType.numeric ∧ yType = ColType.numeric) := by
      rcases h with h | h <;> simp [h]
    unfold coordColsSpatialFilter
    rw [if_neg hne]
    exact ⟨rfl, rfl, rfl⟩
  · intro hx hy
    subst hx
    subst hy
    exact ⟨rfl, rfl, rfl⟩

/-- Witness for C3: the test scenario scaled by 10 — one row at (2, 49) and
the filter rectangle (0, 40)–(10, 49.5) — in both the text-typed and the
numeric-typed configuration; the selected subset is exactly that row. -/
theorem coordCols_spatial_filter_translation_witness :
    ((ColType.text = ColType.text ∨ ColType.text = ColType.text) ∧
      ((coordColsSpatialFilter ColType.text ColType.text
          [⟨2, 20, 490⟩] ⟨0, 400, 100, 495⟩).fastSpatialFilter = false
        ∧ (coordColsSpatialFilter ColType.text ColType.text
            [⟨2, 20, 490⟩] ⟨0, 400, 100, 495⟩).diagnostic = true
        ∧ (coordColsSpatialFilter ColType.text ColType.text
            [⟨2, 20, 490⟩] ⟨0, 400, 100, 495⟩).feats
            = [⟨2, 20, 490⟩].filter
                (fun p => Rect.containsXY ⟨0, 400, 100, 495⟩ p.x p.y)))
    ∧ ((coordColsSpatialFilter ColType.numeric ColType.numeric
          [⟨2, 20, 490⟩] ⟨0, 400, 100, 495⟩).diagnostic = false
        ∧ (coordColsSpatialFilter ColType.numeric ColType.numeric
            [⟨2, 20, 490⟩] ⟨0, 400, 100, 495⟩).fastSpatialFilter = true
        ∧ (coordColsSpatialFilter ColType.numeric ColType.numeric
            [⟨2, 20, 490⟩] ⟨0, 400, 100, 495⟩).feats
            = [⟨2, 20, 490⟩].filter
                (fun p => Rect.containsXY ⟨0, 400, 100, 495⟩ p.x p.y))
    ∧ (coordColsSpatialFilter ColType.text ColType.text
        [⟨2, 20, 490⟩] ⟨0, 400, 100, 495⟩).feats = [⟨2, 20, 490⟩] :=
  ⟨⟨Or.inl rfl,
      (coordCols_spatial_filter_translation ColType.text ColType.text
        [⟨2, 20, 490⟩] ⟨0, 400, 100, 495⟩).1 (Or.inl rfl)⟩,
    (coordCols_spatial_filter_translation ColType.numeric ColType.numeric
      [⟨2, 20, 490⟩] ⟨0, 400, 100, 495⟩).2 rfl rfl,
    by decide⟩

/-- C4: in implicit field mode the coordinate source columns are hidden
from the exposed field list by default — the exposed list is exactly the
remaining source columns in source order — and they stay visible when
explicitly requested. -/
theorem coordCols_hidden_fields (srcFields coordCols : List String) :
    (exposedFields srcFields coordCols false).Sublist srcFields
    ∧ (∀ n, n ∈ exposedFields srcFields coordCols false
        ↔ n ∈ srcFields ∧ n ∉ coordCols)
    ∧ exposedFields srcFields coordCols true = srcFields
    ∧ exposedFields ["x", "val1", "y", "val2", "style"] ["x", "y"] false
        = ["val1", "val2", "style"] := by
  refine ⟨?_, ?_, rfl, by decide⟩
  · simpa only [exposedFields, if_neg Bool.false_ne_true] using
      List.filter_sublist srcFields
  · intro n
    simp [exposedFields, List.mem_filter]

/-- Witness for C4 at the test scenario's source schema: the val1 column of
a CSV with columns x, val1, y consumed by a PointFromColumns geometry. -/
theorem coordCols_hidden_fields_witness :
    "val1" ∈ exposedFields ["x", "val1", "y"] ["x", "y"] false
      ↔ "val1" ∈ ["x", "val1", "y"] ∧ "val1" ∉ ["x", "y"] :=
  (coordCols_hidden_fields ["x", "val1", "y"] ["x", "y"]).2.1 "val1"

/-- Writing `none` at a position that already holds `none` (or lies out of
bounds) leaves the filter list unchanged. -/
theorem set_none_eq_self {α : Type} (l : List (Option α)) (i : Nat)
    (h : l[i]? = some none ∨ l.length ≤ i) : l.set i none = l := by
  rcases h with h | h
  · have hlt : i < l.length := by
      by_contra hge
      rw [List.getElem?_eq_none (le_of_not_lt hge)] at h
      exact Option.noConfusion h
    apply List.ext_getElem?
    intro n
    by_cases hn : i = n
    · subst hn
      rw [List.getElem?_set_self hlt, h]
    · rw [List.getElem?_set_ne hn]
  · exact List.set_eq_of_length_le h

/-- C8: on any layer kind of the model — with or without a source region,
with one or several geometry fields — setting a spatial filter on geometry
field `i` and then clearing it restores the reported feature count to
exactly the unfiltered value. -/
theorem spatial_filter_set_then_clear (l : MGLayer) (i : Nat) (r : Rect)
    (h : l.filters[i]? = some none ∨ l.filters.length ≤ i) :
    ((l.setSpatialFilter i (some r)).setSpatialFilter i none).featureCount
      = l.featureCount := by
  unfold MGLayer.setSpatialFilter
  simp only [List.set_set]
  rw [set_none_eq_self l.filters i h]

/-- Witness for C8 at the multi-geometry test scenario (scaled by 10): a
feature with point geometries (1, 2) and (-1, -2), a filter on the second
geometry field, set and then cleared. -/
theorem spatial_filter_set_then_clear_witness :
    (MGLayer.setSpatialFilter
        (MGLayer.setSpatialFilter
          ⟨[⟨0, [some (10, 20), some (-10, -20)]⟩], none, [none, none]⟩
          1 (some ⟨-11, -21, -9, -19⟩))
        1 none).featureCount
      = (⟨[⟨0, [some (10, 20), some (-10, -20)]⟩], none,
          [none, none]⟩ : MGLayer).featureCount :=
  spatial_filter_set_then_clear
    ⟨[⟨0, [some (10, 20), some (-10, -20)]⟩], none, [none, none]⟩
    1 ⟨-11, -21, -9, -19⟩ (Or.inl rfl)

/-- C6: Warped Layer construction reports an error — returning no usable
layer — in each failure case: inner layer without geometry fields, missing
target SRS, unparsable target SRS, unparsable source-SRS override, and a
named warped geometry field that does not exist on the inner layer. -/
theorem warped_layer_construction_failures
    (parseSRS : String → Option SRS) (d : WarpedDef) :
    (d.innerGeomFields = [] →
        reportsError (constructWarped parseSRS d) = true)
    ∧ (d.targetSRS = none →
        reportsError (constructWarped parseSRS d) = true)
    ∧ (∀ t, d.targetSRS = some t → parseSRS t = none →
        reportsError (constructWarped parseSRS d) = true)
    ∧ (∀ s, d.srcSRS = some s → parseSRS s = none →
        reportsError (constructWarped parseSRS d) = true)
    ∧ (∀ n, d.warpedFieldName = some n → n ∉ d.innerGeomFields →
        reportsError (constructWarped parseSRS d) = true) := by
  refine ⟨fun h => ?_, fun h => ?_, fun t ht hpt => ?_, fun s hs hps => ?_,
    fun n hn hmem => ?_⟩
  · simp [constructWarped, h, reportsError]
  · unfold constructWarped
    by_cases he : d.innerGeomFields.isEmpty
    · simp [he, reportsError]
    · simp [he, h, reportsError]
  · unfold constructWarped
    by_cases he : d.innerGeomFields.isEmpty
    · simp [he, reportsError]
    · simp [he, ht, hpt, reportsError]
  · unfold constructWarped
    by_cases he : d.innerGeomFields.isEmpty
    · simp [he, reportsError]
    · rcases htgt : d.targetSRS with _ | t
      · simp [he, htgt, reportsError]
      · rcases hpt : parseSRS t with _ | srs
        · simp [he, htgt, hpt, reportsError]
        · simp [he, htgt, hpt, hs, hps, reportsError]
  · have hfind : findGeomField d.innerGeomFields n = none := by
      unfold findGeomField
      rw [List.findIdx?_eq_none_iff]
      intro x hx
      simp only [beq_eq_false_iff_ne, ne_eq]
      exact fun hxn => hmem (hxn ▸ hx)
    have hwfi : warpedFieldIndex d
        = Except.error "Cannot find specified geometry field" := by
      unfold warpedFieldIndex
      rw [hn]
      simp [hfind]
    unfold constructWarped
    by_cases he : d.innerGeomFields.isEmpty
    · simp [he, reportsError]
    · rcases htgt : d.targetSRS with _ | t
      · simp [he, htgt, reportsError]
      · rcases hpt : parseSRS t with _ | srs
        · simp [he, htgt, hpt, reportsError]
        · rcases hsrc : d.srcSRS with _ | s
          · simp [he, htgt, hpt, hsrc, hwfi, reportsError]
          · rcases hps : parseSRS s with _ | srs2
            · simp [he, htgt, hpt, hsrc, hps, reportsError]
            · simp [he, htgt, hpt, hsrc, hps, hwfi, reportsError]

/-- Witness for C6 at concrete definitions mirroring the failing test
documents: a geometry-less inner layer, a missing TargetSRS, the unparsable
SRS string foo as target and as source override, and the nonexistent warped
field foo. -/
theorem warped_layer_construction_failures_witness :
    reportsError (constructWarped (fun _ => none)
        ⟨[], none, some "EPSG:32631", none⟩) = true
      ∧ reportsError (constructWarped (fun _ => none)
          ⟨["geometry"], none, none, none⟩) = true
      ∧ reportsError (constructWarped (fun _ => none)
          ⟨["geometry"], none, some "foo", none⟩) = true
      ∧ reportsError (constructWarped (fun s => if s = "foo" then none
            else some (SRS.wellKnown s))
          ⟨["geometry"], some "foo", some "EPSG:32631", none⟩) = true
      ∧ reportsError (constructWarped (fun s => some (SRS.wellKnown s))
          ⟨["geometry"], none, some "EPSG:32631", some "foo"⟩) = true :=
  ⟨(warped_layer_construction_failures (fun _ => none)
      ⟨[], none, some "EPSG:32631", none⟩).1 rfl,
    (warped_layer_construction_failures (fun _ => none)
      ⟨["geometry"], none, none, none⟩).2.1 rfl,
    (warped_layer_construction_failures (fun _ => none)
      ⟨["geometry"], none, some "foo", none⟩).2.2.1 "foo" rfl rfl,
    (warped_layer_construction_failures (fun s => if s = "foo" then none
        else some (SRS.wellKnown s))
      ⟨["geometry"], some "foo", some "EPSG:32631", none⟩).2.2.2.1 "foo" rfl
      (by simp),
    (warped_layer_construction_failures (fun s => some (SRS.wellKnown s))
      ⟨["geometry"], none, some "EPSG:32631", some "foo"⟩).2.2.2.2 "foo" rfl
      (by decide)⟩

/-- C7: when the forward transform fails on a feature's warped geometry,
the feature is still returned with a null geometry and a recorded warning;
its identity, attribute values and other geometry fields pass through
unchanged; a sequential scan still yields every feature; and random read by
id returns the same degraded feature. -/
theorem warped_read_transform_failure (tr : Int × Int → Option (Int × Int))
    (widx : Nat) (f : WFeature) (p : Int × Int)
    (hg : f.geoms.getD widx none = some p) (htr : tr p = none) :
    ((warpFeature tr widx f).1.geoms.getD widx none = none
      ∧ (warpFeature tr widx f).2 = true
      ∧ (warpFeature tr widx f).1.attrs = f.attrs
      ∧ (warpFeature tr widx f).1.fid = f.fid
      ∧ ∀ j, j ≠ widx →
          (warpFeature tr widx f).1.geoms.getD j none = f.geoms.getD j none)
    ∧ (∀ feats : List WFeature,
        (warpedScan tr widx feats).length = feats.length)
    ∧ (∀ feats : List WFeature,
        feats.find? (fun g => g.fid == f.fid) = some f →
        warpedGetFeature tr widx feats f.fid
          = some (warpFeature tr widx f).1) := by
  have hlt : widx < f.geoms.length := by
    by_contra hge
    rw [List.getD_eq_getElem?_getD,
      List.getElem?_eq_none (le_of_not_lt hge)] at hg
    exact Option.noConfusion hg
  have hw : warpFeature tr widx f
      = ({ f with geoms := f.geoms.set widx none }, true) := by
    simp only [warpFeature, hg, htr]
  refine ⟨⟨?_, ?_, ?_, ?_, ?_⟩, ?_, ?_⟩
  · rw [hw, List.getD_eq_getElem?_getD]
    show (f.geoms.set widx none)[widx]?.getD none = none
    rw [List.getElem?_set_self hlt]
    rfl
  · rw [hw]
  · rw [hw]
  · rw [hw]
  · intro j hj
    rw [hw, List.getD_eq_getElem?_getD]
    show (f.geoms.set widx none)[j]?.getD none = f.geoms.getD j none
    rw [List.getElem?_set_ne (Ne.symm hj), ← List.getD_eq_getElem?_getD]
  · intro feats
    simp [warpedScan]
  · intro feats hfind
    unfold warpedGetFeature
    rw [hfind]
    rfl

/-- Witness for C7 at the test's failing coordinate (longitude -180,
latitude 91, scaled by 10): the feature keeps its id and attributes, the
geometry becomes null and a warning is recorded. -/
theorem warped_read_transform_failure_witness :
    (warpFeature boundedTransform 0
        ⟨1000, [("id", 1000)], [some (-1800, 910)]⟩).1.geoms.getD 0 none = none
      ∧ (warpFeature boundedTransform 0
          ⟨1000, [("id", 1000)], [some (-1800, 910)]⟩).2 = true
      ∧ (warpFeature boundedTransform 0
          ⟨1000, [("id", 1000)], [some (-1800, 910)]⟩).1.attrs = [("id", 1000)]
      ∧ (warpFeature boundedTransform 0
          ⟨1000, [("id", 1000)], [some (-1800, 910)]⟩).1.fid = 1000 :=
  ⟨(warped_read_transform_failure boundedTransform 0
      ⟨1000, [("id", 1000)], [some (-1800, 910)]⟩ (-1800, 910) rfl
      (by decide)).1.1,
    (warped_read_transform_failure boundedTransform 0
      ⟨1000, [("id", 1000)], [some (-1800, 910)]⟩ (-1800, 910) rfl
      (by decide)).1.2.1,
    (warped_read_transform_failure boundedTransform 0
      ⟨1000, [("id", 1000)], [some (-1800, 910)]⟩ (-1800, 910) rfl
      (by decide)).1.2.2.1,
    (warped_read_transform_failure boundedTransform 0
      ⟨1000, [("id", 1000)], [some (-1800, 910)]⟩ (-1800, 910) rfl
      (by decide)).1.2.2.2.1⟩

/-- C9: a layer whose definition names a non-existent inner source layer
still answers every schema query — field count 0 and geometry type none
when nothing is declared — every scan yields zero features (next feature
nothing, feature count 0, random read nothing), and data-touching calls
such as setting an attribute filter or positioning by index report
failure. -/
theorem degraded_layer_schema_and_scan (srcLayers : List (String × SrcLayer))
    (d : LayerDefn)
    (hlookup : srcLayers.lookup d.srcLayerName = none)
    (hfields : d.declaredFields = none)
    (hgeom : d.declaredGeomType = none) :
    (openVLayer srcLayers d).fieldCount = 0
      ∧ (openVLayer srcLayers d).geomType = GeomType.noGeometry
      ∧ (openVLayer srcLayers d).nextFeature = none
      ∧ (openVLayer srcLayers d).featureCount = 0
      ∧ (∀ i, (openVLayer srcLayers d).getFeature i = none)
      ∧ (openVLayer srcLayers d).setAttributeFilterOk = false
      ∧ (openVLayer srcLayers d).setNextByIndexOk = false := by
  refine ⟨?_, ?_, ?_, ?_, fun i => ?_, ?_, ?_⟩ <;>
    simp [openVLayer, VLayer.fieldCount, VLayer.geomType, VLayer.nextFeature,
      VLayer.featureCount, VLayer.getFeature, VLayer.setAttributeFilterOk,
      VLayer.setNextByIndexOk, hlookup, hfields, hgeom]

/-- Witness for C9 at a concrete definition: a layer named over an empty
data source so the inner layer test5 cannot be found. -/
theorem degraded_layer_schema_and_scan_witness :
    (openVLayer [] ⟨"test5", none, none⟩).fieldCount = 0
      ∧ (openVLayer [] ⟨"test5", none, none⟩).geomType = GeomType.noGeometry
      ∧ (openVLayer [] ⟨"test5", none, none⟩).nextFeature = none
      ∧ (openVLayer [] ⟨"test5", none, none⟩).featureCount = 0
      ∧ (∀ i, (openVLayer [] ⟨"test5", none, none⟩).getFeature i = none)
      ∧ (openVLayer [] ⟨"test5", none, none⟩).setAttributeFilterOk = false
      ∧ (openVLayer [] ⟨"test5", none, none⟩).setNextByIndexOk = false :=
  degraded_layer_schema_and_scan [] ⟨"test5", none, none⟩ rfl rfl rfl

/-- Shifting the source chain by one step: the chain from `start` at k + 1
is the chain from the referenced descriptor at k. -/
theorem chainFrom_succ_shift (next : String → Option SrcIdentity)
    (start : SrcIdentity) (k : Nat) :
    chainFrom next start (k + 1)
      = (next start.locator).bind (fun nxt => chainFrom next nxt k) := by
  induction k with
  | zero =>
    show next start.locator
      = (next start.locator).bind (fun nxt => chainFrom next nxt 0)
    cases next start.locator <;> rfl
  | succ k ih =>
    show (chainFrom next start (k + 1)).bind (fun c => next c.locator) = _
    rw [ih, Option.bind_assoc]
    rfl

/-- Guard invariant: if an open run succeeds, then no identity of the
source chain reachable within the remaining fuel lies on the stack, and the
chain never revisits an identity. -/
theorem openGuarded_ok_no_revisit (next : String → Option SrcIdentity) :
    ∀ (fuel : Nat) (stack : List SrcIdentity) (cur : SrcIdentity),
      openGuarded next fuel stack cur = Except.ok () →
      ∀ (k : Nat) (c : SrcIdentity), k < fuel →
        chainFrom next cur k = some c →
        c ∉ stack ∧ ∀ m, m < k → chainFrom next cur m ≠ some c := by
  intro fuel
  induction fuel with
  | zero =>
    intro stack cur hok k c hk
    exact absurd hk (Nat.not_lt_zero k)
  | succ fuel ih =>
    intro stack cur hok k c hk hchain
    rw [openGuarded] at hok
    by_cases hmem : cur ∈ stack
    · rw [if_pos hmem] at hok
      exact Except.noConfusion hok
    · rw [if_neg hmem] at hok
      cases hnext : next cur.locator with
      | none =>
        cases k with
        | zero =>
          have hc : cur = c := Option.some.inj hchain
          subst hc
          exact ⟨hmem, fun m hm => absurd hm (Nat.not_lt_zero m)⟩
        | succ m =>
          rw [chainFrom_succ_shift, hnext] at hchain
          exact Option.noConfusion hchain
      | some nxt =>
        simp only [hnext] at hok
        cases k with
        | zero =>
          have hc : cur = c := Option.some.inj hchain
          subst hc
          exact ⟨hmem, fun m hm => absurd hm (Nat.not_lt_zero m)⟩
        | succ m =>
          have hm : m < fuel := Nat.succ_lt_succ_iff.mp hk
          rw [chainFrom_succ_shift, hnext] at hchain
          have hchain' : chainFrom next nxt m = some c := hchain
          obtain ⟨hnotin, hdist⟩ := ih (cur :: stack) nxt hok m c hm hchain'
          refine ⟨fun hc => hnotin (List.mem_cons_of_mem _ hc), ?_⟩
          intro m' hm' hc'
          cases m' with
          | zero =>
            have : cur = c := Option.some.inj hc'
            exact hnotin (this ▸ List.mem_cons_self cur stack)
          | succ m'' =>
            rw [chainFrom_succ_shift, hnext] at hc'
            exact hdist m'' (Nat.succ_lt_succ_iff.mp hm') hc'

/-- C5: a definition whose source-descriptor chain forms a cycle — the
chain from the opened identity revisits an identity at steps i < j — always
fails to open with a reported error once the guard can observe the repeat,
whatever the shared flags carried by the identities; in particular the
mutually referencing pair rec1.vrt ↔ rec2.vrt fails for every combination
of shared flags on its two source descriptors. -/
theorem recursion_guard_cycle_fails (next : String → Option SrcIdentity)
    (start c : SrcIdentity) (i j fuel : Nat)
    (hij : i < j) (hfuel : j < fuel)
    (hci : chainFrom next start i = some c)
    (hcj : chainFrom next start j = some c) :
    reportsError (openGuarded next fuel [] start) = true
      ∧ (∀ sA sB : Bool,
          reportsError (openGuarded (twoNodeCycle sA sB) 10 []
            ⟨"rec1.vrt", sA⟩) = true) := by
  constructor
  · cases hres : openGuarded next fuel [] start with
    | error e => rfl
    | ok u =>
      exfalso
      cases u
      obtain ⟨-, hdist⟩ :=
        openGuarded_ok_no_revisit next fuel [] start hres j c hfuel hcj
      exact hdist i hij hci
  · decide

/-- Witness for C5: the concrete rec1.vrt ↔ rec2.vrt cycle of the tests
with both descriptors marked shared, revisiting the identity
(rec1.vrt, shared) at steps 0 and 2. -/
theorem recursion_guard_cycle_fails_witness :
    reportsError (openGuarded (twoNodeCycle true true) 5 []
        ⟨"rec1.vrt", true⟩) = true
      ∧ (∀ sA sB : Bool,
          reportsError (openGuarded (twoNodeCycle sA sB) 10 []
            ⟨"rec1.vrt", sA⟩) = true) :=
  recursion_guard_cycle_fails (twoNodeCycle true true)
    ⟨"rec1.vrt", true⟩ ⟨"rec1.vrt", true⟩ 0 2 5
    (by decide) (by decide) (by decide) (by decide)

end VRT
